import Mathlib

/-!
Verification of the termina voice-input application.

This file gives a shallow embedding of the program's core logic:
the output cleaning performed on transcripts (Python `str.strip()`),
the speech-provider factory (`speech_providers.py`), the FFmpeg filter
chain builder and audio preprocessor (`ffmpeg_processor.py`), the two
transcription backends' control flow, the recording/processing state
machine of the menu-bar app (`termina.py`), and the module-level
processor singleton.  External effects (the filesystem, the FFmpeg
subprocess, the OpenAI API, the whisper library) are modelled as
explicit oracle parameters; the Lean definitions mirror the Python
control flow branch by branch.
-/

namespace Termina

/-! ### Output cleaning

Both backends post-process the raw transcript text with Python's
`str.strip()` and nothing else (`speech_providers.py` lines 99 and
303-315).  `str.strip()` with no argument removes the characters
with the Unicode whitespace property from both ends; `pyWsCodes`
lists their code points (tab, LF, VT, FF, CR, FS, GS, RS, US, space,
NEL, NBSP and the Unicode space separators). -/

def pyWsCodes : List Nat :=
  [9, 10, 11, 12, 13, 28, 29, 30, 31, 32, 133, 160, 5760,
   8192, 8193, 8194, 8195, 8196, 8197, 8198, 8199, 8200, 8201, 8202,
   8232, 8233, 8239, 8287, 12288]

def isPyWs (c : Char) : Bool := pyWsCodes.contains c.toNat

def stripLeft (l : List Char) : List Char := l.dropWhile isPyWs

def stripRight (l : List Char) : List Char := (l.reverse.dropWhile isPyWs).reverse

def stripChars (l : List Char) : List Char := stripRight (stripLeft l)

/-- Python `s.strip()`: remove leading and trailing whitespace. -/
def pyStrip (s : String) : String := String.mk (stripChars s.data)

/-! ### Speech provider factory (`SpeechProviderFactory.get_provider`)

The factory constructs a provider and returns it only when its
`is_available()` probe succeeds.  Availability of each backend and the
`SPEECH_PROVIDER` environment variable are oracle inputs. -/

inductive Provider
  | openaiP
  | whisperCppP
deriving DecidableEq

structure FactoryEnv where
  openaiAvailable : Bool
  whisperAvailable : Bool
  speechProviderEnv : Option String
deriving DecidableEq

/-- Python `str.lower()` restricted to ASCII letters (the only case
relevant to the provider-name and environment comparisons). -/
def lowChar (c : Char) : Char :=
  if 65 <= c.toNat ∧ c.toNat <= 90 then Char.ofNat (c.toNat + 32) else c

def pyLower (s : String) : String := String.mk (s.data.map lowChar)

def autoNameDefault : String := "auto"
def openaiName : String := "openai"
def whisperCppName : String := "whisper_cpp"
def emptyName : String := ""

/-- `os.getenv("SPEECH_PROVIDER", "auto").lower()`. -/
def prefOf (env : FactoryEnv) : String :=
  pyLower (env.speechProviderEnv.getD autoNameDefault)

/-- The auto-detection path of `get_provider` (lines 366-389): first the
environment preference, then the fixed fallback list
`[OpenAIProvider(), WhisperCppProvider()]`. -/
def autoDetect (env : FactoryEnv) : Option Provider :=
  if prefOf env = openaiName ∧ env.openaiAvailable = true then some Provider.openaiP
  else if prefOf env = whisperCppName ∧ env.whisperAvailable = true then some Provider.whisperCppP
  else if env.openaiAvailable = true then some Provider.openaiP
  else if env.whisperAvailable = true then some Provider.whisperCppP
  else none

/-- `SpeechProviderFactory.get_provider` (lines 340-389).  Python's
`if provider_name:` is falsy both for `None` and for the empty string,
so an empty explicit name falls through to auto-detection. -/
def get_provider (providerName : Option String) (env : FactoryEnv) : Option Provider :=
  match providerName with
  | none => autoDetect env
  | some name =>
    if name = emptyName then autoDetect env
    else if pyLower name = openaiName then
      (if env.openaiAvailable = true then some Provider.openaiP else none)
    else if pyLower name = whisperCppName then
      (if env.whisperAvailable = true then some Provider.whisperCppP else none)
    else none

/-! ### Filter chain builder (`FFmpegAudioProcessor._build_filter_chain`)

The filter configuration is a dictionary from filter name to a record
holding the `enabled` flag and the filter's parameter.  The builder
reads the four known keys (never iterating the dictionary), appends the
enabled filters' renderings in the fixed source order and joins them
with a comma, producing `"anull"` when nothing is enabled.  A missing
key would be a Python `KeyError`, modelled as `none`. -/

structure FilterSpec where
  enabled : Bool
  param : String
deriving DecidableEq

def keyHighpass : String := "highpass"
def keyLowpass : String := "lowpass"
def keyVolume : String := "volume_normalization"
def keyNoiseGate : String := "noise_gate"

def highpassHead : String := "highpass=f="
def lowpassHead : String := "lowpass=f="
def volumeHead : String := "volume="
def gateHead : String := "silenceremove=start_periods=0:start_duration=0.1:start_threshold="
def gateTail : String := "dB:detection=peak"
def anullDesc : String := "anull"
def commaSep : String := ","

def renderHighpass (f : FilterSpec) : String := highpassHead ++ f.param
def renderLowpass (f : FilterSpec) : String := lowpassHead ++ f.param
def renderVolume (f : FilterSpec) : String := volumeHead ++ f.param
def renderNoiseGate (f : FilterSpec) : String := gateHead ++ f.param ++ gateTail

/-- `_build_filter_chain` (lines 134-158). -/
def build_filter_chain (m : List (String × FilterSpec)) : Option String :=
  match m.lookup keyHighpass, m.lookup keyLowpass, m.lookup keyVolume, m.lookup keyNoiseGate with
  | some hp, some lp, some vol, some ng =>
      let fs : List String :=
        (if hp.enabled then [renderHighpass hp] else []) ++
        (if lp.enabled then [renderLowpass lp] else []) ++
        (if vol.enabled then [renderVolume vol] else []) ++
        (if ng.enabled then [renderNoiseGate ng] else [])
      some (if fs = [] then anullDesc else String.intercalate commaSep fs)
  | _, _, _, _ => none

/-- Specification-side description of the chain: the canonical order
highpass, lowpass, volume-normalize, noise-gate, restricted to the
enabled filters. -/
def canonicalChain (hp lp vol ng : FilterSpec) : List String :=
  (([(renderHighpass hp, hp.enabled), (renderLowpass lp, lp.enabled),
     (renderVolume vol, vol.enabled), (renderNoiseGate ng, ng.enabled)].filter
      (fun e => e.2)).map (fun e => e.1))

/-! ### Audio preprocessor (`FFmpegAudioProcessor.process_audio`)

`process_audio` (lines 59-132) returns the input path unchanged when
FFmpeg is unavailable or noise reduction is disabled; otherwise, when
no output path is given, it creates a temporary file, runs FFmpeg, and
on success moves the temporary file over the input, while on a
non-zero exit it unlinks the temporary file, and the surrounding
`try/except` absorbs any exception, unlinking the temporary file if it
still exists; in all failure cases the original input path is
returned.  The filesystem is modelled as the list of existing paths,
the FFmpeg run as an oracle outcome (exit 0 / non-zero exit / any
exception raised inside the `try` block).  Every branch of the Python
function returns normally; the embedding is correspondingly a total
function. -/

inductive RunOutcome
  | ok
  | fail
  | exn
deriving DecidableEq

structure ProcEnv where
  ffmpegAvailable : Bool
  noiseReductionEnabled : Bool
  outcome : RunOutcome
deriving DecidableEq

/-- A path written by FFmpeg or by `shutil.move` exists afterwards. -/
def insertPath (p : String) (fs : List String) : List String :=
  if p ∈ fs then fs else p :: fs

/-- `FFmpegAudioProcessor.process_audio`: result is the returned path and
the filesystem after the call.  `tempPath` is the fresh name handed out
by `tempfile.mkstemp` (used only when `outputPath` is `none`). -/
def process_audio (env : ProcEnv) (inputPath : String) (outputPath : Option String)
    (tempPath : String) (fs : List String) : String × List String :=
  if env.ffmpegAvailable = false then (inputPath, fs)
  else if env.noiseReductionEnabled = false then (inputPath, fs)
  else
    match outputPath with
    | none =>
        let fs1 := tempPath :: fs
        match env.outcome with
        | RunOutcome.ok => (inputPath, insertPath inputPath (fs1.erase tempPath))
        | RunOutcome.fail => (inputPath, fs1.erase tempPath)
        | RunOutcome.exn => (inputPath, fs1.erase tempPath)
    | some outPath =>
        match env.outcome with
        | RunOutcome.ok => (outPath, insertPath outPath fs)
        | RunOutcome.fail => (inputPath, fs)
        | RunOutcome.exn => (inputPath, fs)

/-! ### Transcription backends (`speech_providers.py`)

The control flow of `OpenAIProvider.transcribe` (lines 64-108) and
`WhisperCppProvider.transcribe` (lines 177-322).  Oracle fields
describe the environment after the preprocessing step: whether the
(possibly preprocessed) audio file exists and its size in bytes,
whether the model loads, whether the manual audio loading and
in-memory transcription of the inner `try` block succeed (for a
zero-byte wav file, `scipy.io.wavfile.read` raises, so `manualOk` is
`false` there), the engine's raw result, and the wall-clock duration
of the inference call.  `engineInvoked` records whether the external
service / local inference engine was called. -/

inductive WhisperRaw
  | dictText (t : String)
  | attrText (t : String)
  | strText (t : String)
  | otherFormat
deriving DecidableEq

structure TranscribeOutcome where
  result : Option String
  engineInvoked : Bool
deriving DecidableEq

/-- Outcome of an external call that may raise an exception. -/
inductive CallResult (α : Type)
  | raised
  | returned (a : α)
deriving DecidableEq

structure OpenAIEnv where
  available : Bool
  fileExists : Bool
  fileSize : Nat
  apiResult : CallResult String
deriving DecidableEq

/-- `OpenAIProvider.transcribe`: availability check, preprocessing,
existence check, the explicit `file_size == 0` check, then the API
call whose text is stripped; any exception from the call yields
`None`. -/
def openai_transcribe (env : OpenAIEnv) : TranscribeOutcome :=
  if env.available = false then TranscribeOutcome.mk none false
  else if env.fileExists = false then TranscribeOutcome.mk none false
  else if env.fileSize = 0 then TranscribeOutcome.mk none false
  else
    match env.apiResult with
    | CallResult.raised => TranscribeOutcome.mk none true
    | CallResult.returned t => TranscribeOutcome.mk (some (pyStrip t)) true

structure WhisperEnv where
  available : Bool
  fileExists : Bool
  fileSize : Nat
  loadModelOk : Bool
  manualOk : Bool
  arrayResult : WhisperRaw
  pathResult : CallResult WhisperRaw
  inferenceSeconds : Nat
deriving DecidableEq

/-- Result extraction of lines 303-315: the three recognized result
shapes are stripped, an unexpected shape yields `None`, and the final
`return text if text else None` maps the empty string to `None`. -/
def extractText (raw : WhisperRaw) : Option String :=
  match raw with
  | WhisperRaw.dictText t | WhisperRaw.attrText t | WhisperRaw.strText t =>
      if pyStrip t = emptyName then none else some (pyStrip t)
  | WhisperRaw.otherFormat => none

/-- `WhisperCppProvider.transcribe`: availability check, preprocessing,
existence check (there is no file-size check), model load, then either
the manual in-memory path or — when the manual audio loading raised —
the fallback `self._model.transcribe(audio_path)`.  The function never
consults `fileSize`, and no timeout of any kind is imposed on the
inference call, so the result also never depends on
`inferenceSeconds`. -/
def whisper_transcribe (env : WhisperEnv) : TranscribeOutcome :=
  if env.available = false then TranscribeOutcome.mk none false
  else if env.fileExists = false then TranscribeOutcome.mk none false
  else if env.loadModelOk = false then TranscribeOutcome.mk none false
  else if env.manualOk = true then TranscribeOutcome.mk (extractText env.arrayResult) true
  else
    match env.pathResult with
    | CallResult.raised => TranscribeOutcome.mk none true
    | CallResult.returned raw => TranscribeOutcome.mk (extractText raw) true

/-! ### Recording / processing state machine (`termina.py`)

`toggle_recording` (lines 78-83) dispatches on the single boolean
`self.is_recording`; `start_recording` sets it and spawns the capture
thread; `stop_recording` (lines 105-122) clears it and, when
`self.audio_data` is set, spawns the processing thread; the
processing thread's `finally` clause clears `audio_data`.
State components: `is_recording`, whether `audio_data` is set, and
whether a processing thread is running.  Events: a user toggle, the
capture thread assigning `audio_data`, and the processing thread
finishing. -/

structure AppState where
  is_recording : Bool
  audioData : Bool
  processingRunning : Bool
deriving DecidableEq

def initState : AppState := AppState.mk false false false

/-- `TerminaApp.start_recording` (synchronous part). -/
def start_recording (s : AppState) : AppState :=
  AppState.mk true s.audioData s.processingRunning

/-- `TerminaApp.stop_recording`. -/
def stop_recording (s : AppState) : AppState :=
  if s.is_recording = false then s
  else if s.audioData then AppState.mk false s.audioData true
  else AppState.mk false s.audioData s.processingRunning

/-- `TerminaApp.toggle_recording`. -/
def toggle_recording (s : AppState) : AppState :=
  if s.is_recording then stop_recording s else start_recording s

inductive AppEvent
  | toggle
  | captureDone
  | processDone
deriving DecidableEq

def appStep (s : AppState) (e : AppEvent) : AppState :=
  match e with
  | AppEvent.toggle => toggle_recording s
  | AppEvent.captureDone =>
      if s.is_recording then AppState.mk s.is_recording true s.processingRunning else s
  | AppEvent.processDone =>
      if s.processingRunning then AppState.mk s.is_recording false false else s

def runEvents (es : List AppEvent) : AppState := es.foldl appStep initState

/-! ### Processor singleton (`ffmpeg_processor.py` lines 288-297)

The module-level `_processor_instance` is the explicit state threaded
through `get_processor`: the first call constructs the processor (the
FFmpeg probe result is an oracle), later calls return the stored one.
Mutating methods (`set_noise_reduction`, `configure_filter`) act on
that shared instance. -/

def paramEighty : String := "80"
def paramEightK : String := "8000"
def paramGain : String := "1.5"
def paramThresh : String := "-50"

structure Processor where
  ffmpeg_available : Bool
  noise_reduction_enabled : Bool
  filters : List (String × FilterSpec)
deriving DecidableEq

/-- `FFmpegAudioProcessor._get_default_filters` (parameters as the
strings interpolated into the chain). -/
def default_filters : List (String × FilterSpec) :=
  [(keyHighpass, FilterSpec.mk true paramEighty),
   (keyLowpass, FilterSpec.mk true paramEightK),
   (keyVolume, FilterSpec.mk true paramGain),
   (keyNoiseGate, FilterSpec.mk true paramThresh)]

/-- `FFmpegAudioProcessor.__init__`. -/
def mkProcessor (probeFfmpeg : Bool) : Processor :=
  Processor.mk probeFfmpeg true default_filters

/-- `get_processor`: returns the processor together with the module
state after the call. -/
def get_processor (st : Option Processor) (probeFfmpeg : Bool) : Processor × Option Processor :=
  match st with
  | some p => (p, some p)
  | none => (mkProcessor probeFfmpeg, some (mkProcessor probeFfmpeg))

/-- `FFmpegAudioProcessor.set_noise_reduction`. -/
def set_noise_reduction (p : Processor) (b : Bool) : Processor :=
  Processor.mk p.ffmpeg_available b p.filters

/-! ### Helper lemmas -/

theorem dropWhile_self_idem {α : Type} (p : α → Bool) (l : List α) :
    (l.dropWhile p).dropWhile p = l.dropWhile p := by
  induction l with
  | nil => rfl
  | cons a t ih =>
    cases hp : p a with
    | true => simp [List.dropWhile_cons, hp, ih]
    | false => simp [List.dropWhile_cons, hp]

theorem head?_dropWhile_false {α : Type} {p : α → Bool} {l : List α} {c : α}
    (h : (l.dropWhile p).head? = some c) : p c = false := by
  induction l with
  | nil => cases h
  | cons a t ih =>
    cases hp : p a with
    | true =>
      rw [List.dropWhile_cons, if_pos hp] at h
      exact ih h
    | false =>
      rw [List.dropWhile_cons, if_neg (by simp [hp])] at h
      simp only [List.head?_cons, Option.some.injEq] at h
      rw [← h]
      exact hp

theorem exists_append_dropWhile {α : Type} (p : α → Bool) (l : List α) :
    ∃ t, t ++ l.dropWhile p = l := by
  induction l with
  | nil => exact ⟨[], rfl⟩
  | cons a t ih =>
    cases hp : p a with
    | true =>
      obtain ⟨u, hu⟩ := ih
      exact ⟨a :: u, by simp [List.dropWhile_cons, hp, hu]⟩
    | false => exact ⟨[], by simp [List.dropWhile_cons, hp]⟩

theorem stripRight_append (l : List Char) : ∃ u, stripRight l ++ u = l := by
  obtain ⟨t, ht⟩ := exists_append_dropWhile isPyWs l.reverse
  refine ⟨t.reverse, ?_⟩
  have h2 := congrArg List.reverse ht
  simpa [stripRight, List.reverse_append] using h2

theorem head?_stripRight {l : List Char} {c : Char}
    (h : (stripRight l).head? = some c) : l.head? = some c := by
  obtain ⟨u, hu⟩ := stripRight_append l
  cases hsr : stripRight l with
  | nil => rw [hsr] at h; cases h
  | cons a t =>
    rw [hsr] at h hu
    simp only [List.head?_cons, Option.some.injEq] at h
    rw [← hu, List.cons_append, List.head?_cons, h]

theorem head?_stripChars_false {l : List Char} {c : Char}
    (h : (stripChars l).head? = some c) : isPyWs c = false :=
  head?_dropWhile_false (head?_stripRight h)

theorem stripLeft_stripRight_stripLeft (l : List Char) :
    stripLeft (stripRight (stripLeft l)) = stripRight (stripLeft l) := by
  cases h : stripRight (stripLeft l) with
  | nil => rfl
  | cons a t =>
    have ha : isPyWs a = false := by
      refine head?_stripChars_false (l := l) (c := a) ?_
      rw [stripChars, h, List.head?_cons]
    show stripLeft (a :: t) = a :: t
    rw [stripLeft, List.dropWhile_cons, if_neg (by simp [ha])]

theorem stripRight_idem (l : List Char) : stripRight (stripRight l) = stripRight l := by
  unfold stripRight
  rw [List.reverse_reverse, dropWhile_self_idem]

theorem stripChars_idem (l : List Char) : stripChars (stripChars l) = stripChars l := by
  show stripRight (stripLeft (stripRight (stripLeft l))) = stripRight (stripLeft l)
  rw [stripLeft_stripRight_stripLeft, stripRight_idem]

theorem getLast?_stripChars_false {l : List Char} {c : Char}
    (h : (stripChars l).getLast? = some c) : isPyWs c = false := by
  have h2 : ((stripLeft l).reverse.dropWhile isPyWs).head? = some c := by
    have h3 : ((stripLeft l).reverse.dropWhile isPyWs).reverse.getLast? = some c := h
    rwa [← List.head?_reverse, List.reverse_reverse] at h3
  exact head?_dropWhile_false h2

theorem lookup_perm_eq {α β : Type} [BEq α] [LawfulBEq α]
    {l₁ l₂ : List (α × β)} (h : l₁.Perm l₂) :
    (l₁.map Prod.fst).Nodup → ∀ k, l₁.lookup k = l₂.lookup k := by
  induction h with
  | nil => exact fun _ _ => rfl
  | cons x h ih =>
    intro nd k
    obtain ⟨xa, xb⟩ := x
    simp only [List.map_cons, List.nodup_cons] at nd
    simp only [List.lookup, ih nd.2 k]
  | swap x y l =>
    intro nd k
    obtain ⟨xa, xb⟩ := x
    obtain ⟨ya, yb⟩ := y
    simp only [List.map_cons, List.nodup_cons, List.mem_cons] at nd
    have hne : ya ≠ xa := fun hcl => nd.1 (Or.inl hcl)
    cases h1 : k == xa <;> cases h2 : k == ya <;>
      simp only [List.lookup, h1, h2] <;> try rfl
    exact absurd ((eq_of_beq h2).symm.trans (eq_of_beq h1)) hne
  | trans h₁ h₂ ih₁ ih₂ =>
    intro nd k
    rw [ih₁ nd k, ih₂ ((h₁.map Prod.fst).nodup nd) k]

/-! ### Claim theorems -/

def tsMarkerSample : String := "[00:00:00.000 --> 00:00:02.000] (BGM)  hello"
def helloWord : String := "hello"

/-- Claim C8 (amended): the Output Cleaner as implemented at the cited
sites is Python's `str.strip()`: a total deterministic function mapping
the empty string to itself, whose result carries no leading or trailing
whitespace, and which is idempotent.  It removes no timestamp-range
markers or parenthetical annotations and does not collapse internal
whitespace runs (see the counterexample). -/
theorem clean_output_spec (s : String) :
    pyStrip (pyStrip s) = pyStrip s
    ∧ pyStrip emptyName = emptyName
    ∧ ((pyStrip s).data.head?.all (fun c => !isPyWs c)) = true
    ∧ ((pyStrip s).data.getLast?.all (fun c => !isPyWs c)) = true := by
  refine ⟨?_, rfl, ?_, ?_⟩
  · show String.mk (stripChars (stripChars s.data)) = String.mk (stripChars s.data)
    rw [stripChars_idem]
  · cases hh : (pyStrip s).data.head? with
    | none => rfl
    | some c =>
      have hc : isPyWs c = false := head?_stripChars_false (l := s.data) (c := c) hh
      simp [Option.all, hc]
  · cases hh : (pyStrip s).data.getLast? with
    | none => rfl
    | some c =>
      have hc : isPyWs c = false := getLast?_stripChars_false (l := s.data) (c := c) hh
      simp [Option.all, hc]

/-- Claim C8, counterexample: the implemented cleaner returns the raw
text with its timestamp-range marker, parenthetical annotation and
internal double space intact, instead of the `"hello"` the claim's
cleaning rules would produce. -/
theorem clean_output_cex :
    pyStrip tsMarkerSample = tsMarkerSample ∧ pyStrip tsMarkerSample ≠ helloWord := by
  exact ⟨rfl, by decide⟩

/-- Claim C1 (amended): for every NON-EMPTY provider name passed
explicitly, `get_provider` returns the named backend exactly when that
backend's availability probe succeeds, and returns `none` otherwise —
including for unknown names — never falling back to another backend.
(The empty string, being falsy in Python, is instead treated as no
explicit request and triggers auto-detection; see the
counterexample.) -/
theorem get_provider_explicit_spec (env : FactoryEnv) (name : String) (h : name ≠ emptyName) :
    (get_provider (some name) env = some Provider.openaiP ↔
      pyLower name = openaiName ∧ env.openaiAvailable = true)
    ∧ (get_provider (some name) env = some Provider.whisperCppP ↔
      pyLower name = whisperCppName ∧ env.whisperAvailable = true) := by
  have hne : openaiName ≠ whisperCppName := by decide
  simp only [get_provider, if_neg h]
  by_cases h1 : pyLower name = openaiName
  · by_cases h2 : env.openaiAvailable = true <;> simp [h1, h2, hne]
  · by_cases h2 : pyLower name = whisperCppName
    · by_cases h3 : env.whisperAvailable = true <;> simp [h1, h2, h3, Ne.symm hne]
    · simp [h1, h2]

/-- Claim C1, witness: explicitly requesting the available cloud
backend returns it. -/
theorem get_provider_explicit_spec_w :
    openaiName ≠ emptyName
    ∧ (get_provider (some openaiName) (FactoryEnv.mk true false none) = some Provider.openaiP ↔
        pyLower openaiName = openaiName ∧ (FactoryEnv.mk true false none).openaiAvailable = true) := by
  refine ⟨by decide, ?_⟩
  exact (get_provider_explicit_spec (FactoryEnv.mk true false none) openaiName (by decide)).1

/-- Claim C1, counterexample: the empty string is an explicitly passed
provider name matching no backend, yet `get_provider` falls back to
auto-detection and returns the cloud backend instead of `none`. -/
theorem get_provider_empty_name_cex :
    get_provider (some emptyName) (FactoryEnv.mk true false none) = some Provider.openaiP
    ∧ pyLower emptyName ≠ openaiName ∧ pyLower emptyName ≠ whisperCppName := by
  exact ⟨by decide, by decide, by decide⟩

/-- Claim C2: in auto mode (no explicit name) with no matching
environment preference, `get_provider` tries the backends in the fixed
priority order cloud-first (OpenAI, then local whisper) and returns the
first available one; it returns `none` exactly when no backend is
available. -/
theorem get_provider_auto_spec (env : FactoryEnv)
    (h1 : prefOf env ≠ openaiName) (h2 : prefOf env ≠ whisperCppName) :
    get_provider none env =
      (if env.openaiAvailable = true then some Provider.openaiP
       else if env.whisperAvailable = true then some Provider.whisperCppP
       else none)
    ∧ (get_provider none env = none ↔
        env.openaiAvailable = false ∧ env.whisperAvailable = false) := by
  have hauto : get_provider none env = autoDetect env := rfl
  rw [hauto]
  simp only [autoDetect]
  rw [if_neg (fun hc => h1 hc.1), if_neg (fun hc => h2 hc.1)]
  refine ⟨rfl, ?_⟩
  cases ho : env.openaiAvailable <;> cases hw : env.whisperAvailable <;> simp

/-- Claim C2, witness: with the default `"auto"` preference and only
the local backend available, auto-detection selects it, and the
no-backend characterization holds. -/
theorem get_provider_auto_spec_w :
    get_provider none (FactoryEnv.mk false true none) =
      (if (FactoryEnv.mk false true none).openaiAvailable = true then some Provider.openaiP
       else if (FactoryEnv.mk false true none).whisperAvailable = true then some Provider.whisperCppP
       else none) := by
  exact (get_provider_auto_spec (FactoryEnv.mk false true none) (by decide) (by decide)).1

/-- Claim C3: for every filter mapping holding the four filter records,
the built chain is exactly the enabled filters' renderings, in the
fixed canonical order highpass, lowpass, volume-normalize, noise-gate —
in particular the explicit `"anull"` identity descriptor (never an
empty chain) when zero filters are enabled — and the result is
independent of the mapping's iteration order (invariant under any
permutation of a duplicate-free mapping). -/
theorem build_filter_chain_spec (m m' : List (String × FilterSpec)) (hp lp vol ng : FilterSpec)
    (h1 : m.lookup keyHighpass = some hp) (h2 : m.lookup keyLowpass = some lp)
    (h3 : m.lookup keyVolume = some vol) (h4 : m.lookup keyNoiseGate = some ng)
    (hperm : m.Perm m') (hnd : (m.map Prod.fst).Nodup) :
    build_filter_chain m = some (if canonicalChain hp lp vol ng = [] then anullDesc
      else String.intercalate commaSep (canonicalChain hp lp vol ng))
    ∧ build_filter_chain m' = build_filter_chain m := by
  constructor
  · simp only [build_filter_chain, h1, h2, h3, h4]
    rcases hp with ⟨hpe, hpp⟩
    rcases lp with ⟨lpe, lpp⟩
    rcases vol with ⟨vole, volp⟩
    rcases ng with ⟨nge, ngp⟩
    cases hpe <;> cases lpe <;> cases vole <;> cases nge <;> simp [canonicalChain]
  · have hl : ∀ k, m'.lookup k = m.lookup k := fun k => (lookup_perm_eq hperm hnd k).symm
    simp only [build_filter_chain, hl]

def fsOffHp : FilterSpec := FilterSpec.mk false paramEighty
def fsOffLp : FilterSpec := FilterSpec.mk false paramEightK
def fsOffVol : FilterSpec := FilterSpec.mk false paramGain
def fsOffNg : FilterSpec := FilterSpec.mk false paramThresh

def disabledFilters : List (String × FilterSpec) :=
  [(keyHighpass, fsOffHp), (keyLowpass, fsOffLp), (keyVolume, fsOffVol), (keyNoiseGate, fsOffNg)]

def disabledFiltersRev : List (String × FilterSpec) := disabledFilters.reverse

/-- Claim C3, witness: an all-disabled mapping yields the identity
descriptor, and a reversed (re-ordered) mapping yields the same
chain. -/
theorem build_filter_chain_spec_w :
    build_filter_chain disabledFilters =
      some (if canonicalChain fsOffHp fsOffLp fsOffVol fsOffNg = [] then anullDesc
        else String.intercalate commaSep (canonicalChain fsOffHp fsOffLp fsOffVol fsOffNg))
    ∧ build_filter_chain disabledFiltersRev = build_filter_chain disabledFilters := by
  exact build_filter_chain_spec disabledFilters disabledFiltersRev fsOffHp fsOffLp fsOffVol fsOffNg
    (by decide) (by decide) (by decide) (by decide) (by decide) (by decide)

/-- Claim C4: whenever FFmpeg is unavailable, noise reduction is
disabled, FFmpeg exits non-zero, or an exception is raised during
processing, `process_audio` returns the input path unchanged; every
branch of the function returns normally (the embedding is a total
function), so no preprocessing failure propagates to the caller. -/
theorem process_audio_degrade_spec (env : ProcEnv) (inputPath : String)
    (outputPath : Option String) (tempPath : String) (fs : List String)
    (h : env.ffmpegAvailable = false ∨ env.noiseReductionEnabled = false
      ∨ env.outcome = RunOutcome.fail ∨ env.outcome = RunOutcome.exn) :
    (process_audio env inputPath outputPath tempPath fs).1 = inputPath := by
  rcases env with ⟨fa, nr, oc⟩
  cases fa <;> cases nr <;> cases oc <;> cases outputPath <;> simp_all [process_audio]

def inputSample : String := "input.wav"
def tempSample : String := "tmp.wav"

/-- Claim C4, witness: a non-zero FFmpeg exit returns the input path. -/
theorem process_audio_degrade_spec_w :
    (process_audio (ProcEnv.mk true true RunOutcome.fail) inputSample none tempSample []).1
      = inputSample := by
  exact process_audio_degrade_spec (ProcEnv.mk true true RunOutcome.fail) inputSample none
    tempSample [] (Or.inr (Or.inr (Or.inl rfl)))

/-- Claim C5: when the output target is omitted, the temporary file
never persists: after `process_audio` the fresh temp path is absent
from the filesystem on every exit path (moved over the input on
success, unlinked on failure or exception), and the returned path is
the input path. -/
theorem process_audio_temp_spec (env : ProcEnv) (inputPath tempPath : String) (fs : List String)
    (hfresh : tempPath ∉ fs) (hne : tempPath ≠ inputPath) :
    tempPath ∉ (process_audio env inputPath none tempPath fs).2
    ∧ (process_audio env inputPath none tempPath fs).1 = inputPath := by
  rcases env with ⟨fa, nr, oc⟩
  cases fa <;> cases nr <;> cases oc <;>
    simp_all [process_audio, insertPath, List.erase_cons_head] <;>
    (try split) <;> simp_all

/-- Claim C5, witness: on a successful run with no explicit output
target, the temp file is gone afterwards and the input path is
returned. -/
theorem process_audio_temp_spec_w :
    tempSample ∉
      (process_audio (ProcEnv.mk true true RunOutcome.ok) inputSample none tempSample
        [inputSample]).2
    ∧ (process_audio (ProcEnv.mk true true RunOutcome.ok) inputSample none tempSample
        [inputSample]).1 = inputSample := by
  exact process_audio_temp_spec (ProcEnv.mk true true RunOutcome.ok) inputSample tempSample
    [inputSample] (by decide) (by decide)

/-- Claim C6 (amended): only the cloud backend validates the clip: for
every environment in which the (post-preprocessing) audio file is
zero-byte, `OpenAIProvider.transcribe` returns `none` without invoking
the remote service; the local backend performs no size check, and when
its manual audio loading fails (as it does on a zero-byte wav) it
still invokes the inference engine through the fallback path. -/
theorem transcribe_empty_clip_spec (eo : OpenAIEnv) (ew : WhisperEnv)
    (ho : eo.fileSize = 0)
    (hw1 : ew.available = true) (hw2 : ew.fileExists = true) (hw3 : ew.loadModelOk = true)
    (hw4 : ew.manualOk = false) :
    openai_transcribe eo = TranscribeOutcome.mk none false
    ∧ (whisper_transcribe ew).engineInvoked = true := by
  constructor
  · rcases eo with ⟨av, fe, sz, api⟩
    cases av <;> cases fe <;> simp_all [openai_transcribe]
  · simp only [whisper_transcribe, hw1, hw2, hw3, hw4]
    cases hp : ew.pathResult <;> simp

/-- Claim C6, witness: a zero-byte clip makes the cloud backend return
`none` without calling the API, while the local backend still invokes
the engine. -/
theorem transcribe_empty_clip_spec_w :
    openai_transcribe (OpenAIEnv.mk true true 0 CallResult.raised) = TranscribeOutcome.mk none false
    ∧ (whisper_transcribe
        (WhisperEnv.mk true true 0 true false WhisperRaw.otherFormat
          (CallResult.returned (WhisperRaw.strText helloWord)) 1)).engineInvoked = true := by
  exact transcribe_empty_clip_spec (OpenAIEnv.mk true true 0 CallResult.raised)
    (WhisperEnv.mk true true 0 true false WhisperRaw.otherFormat
      (CallResult.returned (WhisperRaw.strText helloWord)) 1)
    rfl rfl rfl rfl rfl

/-- Claim C6, counterexample: on a zero-byte clip (manual audio loading
fails, as `scipy.io.wavfile.read` raises on an empty file) the local
backend invokes the engine via the fallback path and returns its text —
not `none` without invocation as the claim states for every backend. -/
theorem transcribe_empty_clip_cex :
    (WhisperEnv.mk true true 0 true false WhisperRaw.otherFormat
        (CallResult.returned (WhisperRaw.dictText helloWord)) 1).fileSize = 0
    ∧ (whisper_transcribe
        (WhisperEnv.mk true true 0 true false WhisperRaw.otherFormat
          (CallResult.returned (WhisperRaw.dictText helloWord)) 1)).result = some helloWord
    ∧ (whisper_transcribe
        (WhisperEnv.mk true true 0 true false WhisperRaw.otherFormat
          (CallResult.returned (WhisperRaw.dictText helloWord)) 1)).engineInvoked = true := by
  exact ⟨rfl, by decide, rfl⟩

/-- Claim C7 (amended): the local backend's `transcribe` imposes no
timeout at all: its outcome is entirely independent of how long the
external inference runs — in particular a run exceeding five minutes
still yields the engine's text rather than `none`. -/
theorem whisper_no_timeout_spec (ew : WhisperEnv) (s : Nat) :
    whisper_transcribe
      (WhisperEnv.mk ew.available ew.fileExists ew.fileSize ew.loadModelOk ew.manualOk
        ew.arrayResult ew.pathResult s)
      = whisper_transcribe ew := by
  rcases ew with ⟨a, b, c, d, e, f, g, t⟩
  rfl

/-- Claim C7, counterexample: an inference run of 600 seconds — double
the claimed 5-minute (300 s) bound — still returns the engine's text
instead of `none`. -/
theorem whisper_timeout_cex :
    300 < (WhisperEnv.mk true true 100 true true (WhisperRaw.dictText helloWord)
        CallResult.raised 600).inferenceSeconds
    ∧ (whisper_transcribe
        (WhisperEnv.mk true true 100 true true (WhisperRaw.dictText helloWord)
          CallResult.raised 600)).result = some helloWord := by
  exact ⟨by decide, by decide⟩

/-- Claim C9 (amended): the only flag checked before starting a session
is `is_recording`, so a toggle while recording always stops (two
recordings cannot overlap), but a toggle while idle starts a new
recording unconditionally — even while the prior session's processing
thread is still running, whose flag it leaves untouched.  Recording
and processing are therefore not mutually exclusive (see the
counterexample trace). -/
theorem toggle_recording_spec (s t : AppState)
    (hs : s.is_recording = true) (ht : t.is_recording = false) :
    (toggle_recording s).is_recording = false
    ∧ toggle_recording t = AppState.mk true t.audioData t.processingRunning := by
  constructor
  · by_cases ha : s.audioData <;> simp [toggle_recording, stop_recording, hs, ha]
  · simp [toggle_recording, start_recording, ht]

/-- Claim C9, witness: from a recording-while-processing state the
toggle stops; from an idle-but-still-processing state the toggle starts
a new recording with the processing flag still set. -/
theorem toggle_recording_spec_w :
    (toggle_recording (AppState.mk true true true)).is_recording = false
    ∧ toggle_recording (AppState.mk false true true) = AppState.mk true true true := by
  exact toggle_recording_spec (AppState.mk true true true) (AppState.mk false true true) rfl rfl

/-- Claim C9, counterexample: the event trace start, capture, stop
(spawning the processing thread), start again reaches a state that is
recording while the previous session's processing thread still runs —
the mutual exclusion the claim asserts does not hold. -/
theorem recording_during_processing_cex :
    (runEvents [AppEvent.toggle, AppEvent.captureDone, AppEvent.toggle,
        AppEvent.toggle]).is_recording = true
    ∧ (runEvents [AppEvent.toggle, AppEvent.captureDone, AppEvent.toggle,
        AppEvent.toggle]).processingRunning = true := by
  exact ⟨rfl, rfl⟩

/-- Claim C10: `get_processor` is a process-wide singleton: the state
after any call stores exactly the returned processor, a call with a
stored processor returns it unchanged, and a mutation of the stored
instance (here `set_noise_reduction`) is observed by the next
`get_processor` call — so every backend's subsequent preprocessing sees
the toggle. -/
theorem get_processor_singleton_spec (st : Option Processor) (probeFfmpeg : Bool)
    (p : Processor) (b : Bool) :
    (get_processor st probeFfmpeg).2 = some (get_processor st probeFfmpeg).1
    ∧ get_processor (some p) probeFfmpeg = (p, some p)
    ∧ (get_processor (Option.map (fun q => set_noise_reduction q b)
        (get_processor st probeFfmpeg).2) probeFfmpeg).1.noise_reduction_enabled = b := by
  rcases st with _ | q <;> simp [get_processor, set_noise_reduction]

end Termina
